import Mathlib

/-!
# Verification of the Monthly Ledger Engine of `GerenciadorSalario`

Shallow embedding of the budgeting engine found in
`src/meu-financeiro/src/App.jsx`.  The React component keeps four
in-memory collections (`categories`, `recurringExpenses`,
`monthlyLedgers`, `transactions`); every engine operation is embedded
here as a pure function over a snapshot of that state.  JavaScript
numbers are modelled as exact rationals (`ℚ`); the one place where IEEE
special values are observable (`percentage` with a zero category limit)
is modelled with an explicit extended-number type.  The JavaScript
object `monthlyLedgers` is modelled as an ordered association list with
unique keys; `Date.now() + Math.random().toString()` id generation is
modelled by an id oracle `idGen : ℕ → String` supplied by the caller.
-/

set_option autoImplicit false

namespace GerenciadorSalario

/-- A spending category, created by `handleCreateCategory`
(`{ id, name, limit }`). -/
structure Category where
  id : String
  name : String
  limit : ℚ
deriving DecidableEq, Repr

/-- A recurring expense template, created by `handleCreateRecurring`
(`{ id, name, amount, categoryId }`). -/
structure Recurring where
  id : String
  name : String
  amount : ℚ
  categoryId : String
deriving DecidableEq, Repr

/-- A transaction.  Automated ones (created by `startNewMonth`) carry a
`description` and `isFixed: true`; user-entered ones (the add-transaction
submit handler) leave both fields absent, modelled as `none` / `false`. -/
structure Transaction where
  id : String
  monthKey : String
  categoryId : String
  amount : ℚ
  description : Option String
  date : String
  isFixed : Bool
deriving DecidableEq, Repr

/-- A monthly ledger (`{ income, rollover, status }`). -/
structure Ledger where
  income : ℚ
  rollover : ℚ
  status : String
deriving DecidableEq, Repr

/-- The four in-memory collections of the component.  `monthlyLedgers`
is a JavaScript object keyed by month strings, modelled as an ordered
association list (JS objects never hold two entries with one key). -/
structure AppState where
  categories : List Category
  recurringExpenses : List Recurring
  monthlyLedgers : List (String × Ledger)
  transactions : List Transaction
deriving DecidableEq, Repr

/-- `String(n).padStart(2, '0')`. -/
def pad2 (n : ℤ) : String :=
  let s := toString n
  if s.length < 2 then "0" ++ s else s

/-- `new Date(year, monthIndex)` normalisation, keeping only the fields
the code reads back: `(getFullYear(), getMonth())`.  JavaScript carries
an out-of-range `monthIndex` into the year (floor-division), so e.g.
`dateOf y (-1) = (y - 1, 11)`. -/
def dateOf (year monthIndex : ℤ) : ℤ × ℤ :=
  (year + monthIndex / 12, monthIndex % 12)

/-- `getMonthKey(date)`: `` `${date.getFullYear()}-${String(date.getMonth() + 1).padStart(2, '0')}` ``. -/
def getMonthKey (d : ℤ × ℤ) : String :=
  toString d.1 ++ "-" ++ pad2 (d.2 + 1)

/-- `monthlyLedgers[key]`: first (only) entry with the given key. -/
def getLedger : List (String × Ledger) → String → Option Ledger
  | [], _ => none
  | p :: rest, k => if p.1 == k then some p.2 else getLedger rest k

/-- `{...prev, [key]: v}` on a JS object: replace the entry in place if
the key is present, append it otherwise. -/
def setLedger : List (String × Ledger) → String → Ledger → List (String × Ledger)
  | [], k, v => [(k, v)]
  | p :: rest, k, v => if p.1 == k then (k, v) :: rest else p :: setLedger rest k v

/-- `list.reduce((acc, t) => acc + Number(t.amount), 0)`. -/
def sumAmounts (l : List Transaction) : ℚ :=
  l.foldl (fun acc t => acc + t.amount) 0

/-- `calculateRollover(targetMonthKey)` (App.jsx lines 116–135), taking
the already-split `[year, month]` of the target key (the code obtains
them by `targetMonthKey.split('-').map(Number)`).  The previous month's
key is `getMonthKey(new Date(year, month - 2))`. -/
def calculateRollover (st : AppState) (year month : ℤ) : ℚ :=
  let prevKey := getMonthKey (dateOf year (month - 2))
  match getLedger st.monthlyLedgers prevKey with
  | none => 0
  | some prevLedger =>
      let prevExpenses := sumAmounts (st.transactions.filter (fun t => t.monthKey == prevKey))
      max 0 (prevLedger.income + prevLedger.rollover - prevExpenses)

/-- The automated transactions `recurringExpenses.map(model => ...)`
built by `startNewMonth`, with the per-element id draw made explicit as
`idGen` applied to the element's position. -/
def makeAutos (idGen : ℕ → String) (key now : String) : ℕ → List Recurring → List Transaction
  | _, [] => []
  | i, model :: rest =>
      { id := idGen i
        monthKey := key
        categoryId := model.categoryId
        amount := model.amount
        description := some (model.name ++ " (Fixo Recorrente)")
        date := now
        isFixed := true } :: makeAutos idGen key now (i + 1) rest

/-- `startNewMonth(incomeInput, rolloverInput)` (App.jsx lines 138–168):
stores `{income, rollover, status: 'OPEN'}` under the current month key
and appends one automated transaction per recurring template.  `now` is
`new Date().toISOString()` and `idGen` the id oracle. -/
def startNewMonth (st : AppState) (currentMonthKey : String) (income rollover : ℚ)
    (idGen : ℕ → String) (now : String) : AppState :=
  let newLedger : Ledger := { income := income, rollover := rollover, status := "OPEN" }
  { st with
    monthlyLedgers := setLedger st.monthlyLedgers currentMonthKey newLedger
    transactions := st.transactions ++ makeAutos idGen currentMonthKey now 0 st.recurringExpenses }

/-- `currentTransactions`: transactions tagged with the current month. -/
def currentTransactions (st : AppState) (key : String) : List Transaction :=
  st.transactions.filter (fun t => t.monthKey == key)

/-- `getSpentByCategory(categoryId)` for a given month. -/
def getSpentByCategory (st : AppState) (key categoryId : String) : ℚ :=
  sumAmounts ((currentTransactions st key).filter (fun t => t.categoryId == categoryId))

/-- `totalSpent` for a given month. -/
def totalSpent (st : AppState) (key : String) : ℚ :=
  sumAmounts (currentTransactions st key)

/-- `totalAvailable = (currentLedger?.income || 0) + (currentLedger?.rollover || 0)`.
For rational values `x || 0` differs from `x` only at `x = 0`, where both
read 0, so optional chaining plus `|| 0` is `Option.getD 0`. -/
def totalAvailable (st : AppState) (key : String) : ℚ :=
  ((getLedger st.monthlyLedgers key).map Ledger.income).getD 0 +
    ((getLedger st.monthlyLedgers key).map Ledger.rollover).getD 0

/-- `remainingBalance = totalAvailable - totalSpent`. -/
def remainingBalance (st : AppState) (key : String) : ℚ :=
  totalAvailable st key - totalSpent st key

/-- The add-transaction submit handler (App.jsx lines 372–382): appends
one transaction with the current month key and the form's category and
amount.  No validation of any kind is performed by the handler. -/
def recordTransaction (st : AppState) (key categoryId : String) (amount : ℚ)
    (id now : String) : AppState :=
  { st with
    transactions := st.transactions ++
      [{ id := id, monthKey := key, categoryId := categoryId, amount := amount
         description := none, date := now, isFixed := false }] }

/-- JavaScript numbers as observable in the `percentage` computation:
finite values (exact rationals), the two infinities, and `NaN`. -/
inductive JsNum where
  | num (q : ℚ)
  | posInf
  | negInf
  | nan
deriving DecidableEq, Repr

/-- JavaScript division `a / b` on finite inputs: division by zero gives
`±Infinity` for a nonzero dividend and `NaN` for `0 / 0`. -/
def jsDiv (a b : ℚ) : JsNum :=
  if b = 0 then
    if 0 < a then JsNum.posInf else if a < 0 then JsNum.negInf else JsNum.nan
  else JsNum.num (a / b)

/-- Multiplication of the quotient by the literal `100`. -/
def jsMul100 : JsNum → JsNum
  | JsNum.num q => JsNum.num (q * 100)
  | JsNum.posInf => JsNum.posInf
  | JsNum.negInf => JsNum.negInf
  | JsNum.nan => JsNum.nan

/-- `Math.min(x, c)` with a finite second argument: `NaN` is absorbing,
`Infinity` yields `c`, `-Infinity` stays. -/
def jsMin (x : JsNum) (c : ℚ) : JsNum :=
  match x with
  | JsNum.num q => JsNum.num (min q c)
  | JsNum.posInf => JsNum.num c
  | JsNum.negInf => JsNum.negInf
  | JsNum.nan => JsNum.nan

/-- `percentage = Math.min((spent / cat.limit) * 100, 100)`
(App.jsx line 451). -/
def percentage (spent limit : ℚ) : JsNum :=
  jsMin (jsMul100 (jsDiv spent limit)) 100

/-- `GetSummary`: the tuple of figures the dashboard renders for a
month — total available, total spent, remaining balance, and the
per-category spends in registry order. -/
def getSummary (st : AppState) (key : String) : ℚ × ℚ × ℚ × List (String × ℚ) :=
  (totalAvailable st key, totalSpent st key, remainingBalance st key,
    st.categories.map (fun c => (c.id, getSpentByCategory st key c.id)))

/-- `calculateRollover` as a state transformer.  The handler's effect on
component state is the composition of its `set...` calls; it makes none,
so the state component is the input state unchanged. -/
def calculateRolloverOp (st : AppState) (year month : ℤ) : ℚ × AppState :=
  (calculateRollover st year month, st)

/-- The summary computation as a state transformer (the dashboard memos
call no setters). -/
def getSummaryOp (st : AppState) (key : String) : (ℚ × ℚ × ℚ × List (String × ℚ)) × AppState :=
  (getSummary st key, st)

/-- The open-month flow as reachable through the UI: the month-setup
screen — the only caller of `startNewMonth` — is rendered only under the
`!currentLedger` branch (App.jsx line 222), so the flow performs nothing
when a ledger already exists for the displayed month. -/
def openMonthFlow (st : AppState) (key : String) (income rollover : ℚ)
    (idGen : ℕ → String) (now : String) : Option AppState :=
  if (getLedger st.monthlyLedgers key).isSome then none
  else some (startNewMonth st key income rollover idGen now)

/-- `handleMonthChange` / the previous-month computation generalised:
shifting month `m` of year `y` (with `m` in `1..12`) by `n` calendar
months via JavaScript `Date` normalisation of month index `(m - 1) + n`. -/
def shiftMonth (year month n : ℤ) : ℤ × ℤ :=
  let d := dateOf year (month - 1 + n)
  (d.1, d.2 + 1)

/-! ### Concrete states used by witnesses and counterexamples -/

/-- A state whose October 2025 ledger provides 120 while 170 were spent
(overspend). -/
def stOverspend : AppState :=
  { categories := [{ id := "cat1", name := "Lazer", limit := 200 }]
    recurringExpenses := []
    monthlyLedgers := [("2025-10", { income := 100, rollover := 20, status := "OPEN" })]
    transactions := [{ id := "t1", monthKey := "2025-10", categoryId := "cat1",
                       amount := 170, description := none, date := "d", isFixed := false }] }

/-- A fresh state with two categories, one recurring template and no
ledger, about to open October 2025. -/
def stFresh : AppState :=
  { categories := [{ id := "cat1", name := "Moradia", limit := 1500 },
                   { id := "cat2", name := "Lazer", limit := 300 }]
    recurringExpenses := [{ id := "r1", name := "Aluguel", amount := 1200, categoryId := "cat1" }]
    monthlyLedgers := []
    transactions := [] }

/-- A state where October 2025 is already open, with one recurring
template registered and an empty transaction log. -/
def stOpened : AppState :=
  { categories := [{ id := "cat1", name := "Moradia", limit := 1500 }]
    recurringExpenses := [{ id := "r1", name := "Aluguel", amount := 1200, categoryId := "cat1" }]
    monthlyLedgers := [("2025-10", { income := 3000, rollover := 0, status := "OPEN" })]
    transactions := [] }

/-- A state with two categories and three October 2025 transactions,
used to check aggregation consistency. -/
def stAgg : AppState :=
  { categories := [{ id := "cat1", name := "Moradia", limit := 1500 },
                   { id := "cat2", name := "Lazer", limit := 300 }]
    recurringExpenses := []
    monthlyLedgers := [("2025-10", { income := 3000, rollover := 0, status := "OPEN" })]
    transactions := [{ id := "t1", monthKey := "2025-10", categoryId := "cat1",
                       amount := 1200, description := none, date := "d", isFixed := false },
                     { id := "t2", monthKey := "2025-10", categoryId := "cat2",
                       amount := 50, description := none, date := "d", isFixed := false },
                     { id := "t3", monthKey := "2025-10", categoryId := "cat2",
                       amount := 75, description := none, date := "d", isFixed := false }] }

/-- The empty state. -/
def stEmpty : AppState :=
  { categories := [], recurringExpenses := [], monthlyLedgers := [], transactions := [] }

/-- An id oracle producing `"auto0", "auto1", ...`. -/
def sampleIdGen (i : ℕ) : String := "auto" ++ toString i

/-- A category whose limit is zero. -/
def catZero : Category := { id := "cz", name := "Assinaturas", limit := 0 }

/-- A state holding only the zero-limit category, with October 2025 open
and nothing spent. -/
def stZeroLimit : AppState :=
  { categories := [catZero]
    recurringExpenses := []
    monthlyLedgers := [("2025-10", { income := 100, rollover := 0, status := "OPEN" })]
    transactions := [] }

/-! ## Helper lemmas -/

theorem getLedger_setLedger_self (ls : List (String × Ledger)) (k : String) (v : Ledger) :
    getLedger (setLedger ls k v) k = some v := by
  induction ls with
  | nil => simp [setLedger, getLedger]
  | cons p rest ih =>
      by_cases h : p.1 = k
      · simp [setLedger, getLedger, h]
      · simp only [setLedger, getLedger]
        rw [if_neg (by simpa using h), getLedger]
        rw [if_neg (by simpa using h)]
        exact ih

theorem getLedger_setLedger_ne (ls : List (String × Ledger)) (k k' : String) (v : Ledger)
    (hne : k' ≠ k) : getLedger (setLedger ls k v) k' = getLedger ls k' := by
  induction ls with
  | nil =>
      have h : (k == k') = false := by simpa using fun h : k = k' => hne h.symm
      simp [setLedger, getLedger, h]
  | cons p rest ih =>
      by_cases h : p.1 = k
      · subst h
        have h1 : (p.1 == k') = false := by simpa using fun h : p.1 = k' => hne h.symm
        simp [setLedger, getLedger, h1]
      · have h2 : (p.1 == k) = false := by simpa using h
        by_cases h3 : p.1 = k'
        · simp [setLedger, getLedger, h2, h3, hne]
        · have h4 : (p.1 == k') = false := by simpa using h3
          simp [setLedger, getLedger, h2, h4, hne, ih]

theorem countP_setLedger (ls : List (String × Ledger)) (k : String) (v : Ledger)
    (hnd : (ls.map Prod.fst).Nodup) :
    ((setLedger ls k v).filter (fun p => p.1 == k)).length = 1 := by
  induction ls with
  | nil => simp [setLedger]
  | cons p rest ih =>
      simp only [List.map_cons, List.nodup_cons] at hnd
      by_cases h : p.1 = k
      · subst h
        have hnil : rest.filter (fun q => q.1 == p.1) = [] := by
          rw [List.filter_eq_nil_iff]
          intro a ha
          simp only [beq_iff_eq]
          intro hak
          exact hnd.1 (hak ▸ List.mem_map_of_mem Prod.fst ha)
        simp [setLedger, List.filter_cons, hnil]
      · have h2 : (p.1 == k) = false := by simpa using h
        simp [setLedger, h2, List.filter_cons, ih hnd.2]

theorem sumAmounts_eq (l : List Transaction) :
    sumAmounts l = (l.map Transaction.amount).sum := by
  have key : ∀ (l : List Transaction) (c : ℚ),
      l.foldl (fun acc t => acc + t.amount) c = c + (l.map Transaction.amount).sum := by
    intro l
    induction l with
    | nil => intro c; simp
    | cons t rest ih => intro c; simp [List.foldl_cons, ih, add_assoc]
  simpa [sumAmounts] using key l 0

theorem makeAutos_length (idGen : ℕ → String) (key now : String) :
    ∀ (i : ℕ) (l : List Recurring), (makeAutos idGen key now i l).length = l.length := by
  intro i l
  induction l generalizing i with
  | nil => rfl
  | cons m rest ih => simp [makeAutos, ih]

/-! ## C1: the rollover computation -/

/-- C1: for every state and target month, `calculateRollover` returns 0
when no ledger exists for the key of the immediately preceding month,
otherwise `max 0 (prev.income + prev.rollover - Σ amounts of the
transactions tagged with the previous month's key)`; in every case the
result is non-negative. -/
theorem calculateRollover_spec (st : AppState) (year month : ℤ) :
    0 ≤ calculateRollover st year month ∧
    (getLedger st.monthlyLedgers (getMonthKey (dateOf year (month - 2))) = none →
      calculateRollover st year month = 0) ∧
    (∀ L, getLedger st.monthlyLedgers (getMonthKey (dateOf year (month - 2))) = some L →
      calculateRollover st year month =
        max 0 (L.income + L.rollover -
          sumAmounts (st.transactions.filter
            (fun t => t.monthKey == getMonthKey (dateOf year (month - 2)))))) := by
  refine ⟨?_, ?_, ?_⟩
  · unfold calculateRollover
    cases h : getLedger st.monthlyLedgers (getMonthKey (dateOf year (month - 2))) with
    | none => simp [h]
    | some L => simp [h]
  · intro h
    unfold calculateRollover
    simp [h]
  · intro L h
    unfold calculateRollover
    simp [h]

/-- Witness for C1 on a concrete state: September 2025 was opened with
income 3000 and rollover 0 and carries one 2500 transaction, so the
October 2025 rollover is 500; on the empty state it is 0. -/
theorem calculateRollover_spec_witness :
    calculateRollover
      { categories := []
        recurringExpenses := []
        monthlyLedgers := [("2025-09", { income := 3000, rollover := 0, status := "OPEN" })]
        transactions := [{ id := "t1", monthKey := "2025-09", categoryId := "c1",
                           amount := 2500, description := none, date := "d", isFixed := false }] }
      2025 10 = 500 ∧
    calculateRollover
      { categories := [], recurringExpenses := [], monthlyLedgers := [], transactions := [] }
      2025 10 = 0 := by
  constructor
  · have h := (calculateRollover_spec
      { categories := []
        recurringExpenses := []
        monthlyLedgers := [("2025-09", { income := 3000, rollover := 0, status := "OPEN" })]
        transactions := [{ id := "t1", monthKey := "2025-09", categoryId := "c1",
                           amount := 2500, description := none, date := "d", isFixed := false }] }
      2025 10).2.2 { income := 3000, rollover := 0, status := "OPEN" } (by decide)
    rw [h]
    have hfilter : List.filter
        (fun t => t.monthKey == getMonthKey (dateOf 2025 (10 - 2)))
        [({ id := "t1", monthKey := "2025-09", categoryId := "c1",
            amount := 2500, description := none, date := "d", isFixed := false } : Transaction)] =
        [{ id := "t1", monthKey := "2025-09", categoryId := "c1",
           amount := 2500, description := none, date := "d", isFixed := false }] := by decide
    rw [hfilter]
    have hsum : sumAmounts
        [({ id := "t1", monthKey := "2025-09", categoryId := "c1",
            amount := 2500, description := none, date := "d", isFixed := false } : Transaction)] = 2500 := by
      simp [sumAmounts]
    rw [hsum]
    rw [show ((⟨3000, 0, "OPEN"⟩ : Ledger).income + (⟨3000, 0, "OPEN"⟩ : Ledger).rollover
        - (2500 : ℚ)) = 500 from by norm_num]
    exact max_eq_right (by norm_num)
  · have h := (calculateRollover_spec
      { categories := [], recurringExpenses := [], monthlyLedgers := [], transactions := [] }
      2025 10).2.1 (by decide)
    exact h

/-! ## C6: month-key shifting and year rollover -/

/-- C6: shifting any month of any year by `n` calendar months (`n`
possibly negative) lands on a month `1..12` exactly `n` months away
in linear month count (so year rollover is handled); in particular the
previous-month key computed for a January target — the key
`calculateRollover` looks up — is December of the previous year, and the
month component of the derived key is the zero-padded two-digit form
required by the canonical `"YYYY-MM"` shape. -/
theorem shiftMonth_spec (year month n : ℤ) :
    (1 ≤ (shiftMonth year month n).2 ∧ (shiftMonth year month n).2 ≤ 12 ∧
      12 * (shiftMonth year month n).1 + (shiftMonth year month n).2 = 12 * year + month + n) ∧
    shiftMonth year 1 (-1) = (year - 1, 12) ∧
    getMonthKey (dateOf year (1 - 2)) = toString (year - 1) ++ "-" ++ "12" ∧
    1 ≤ (dateOf year (month - 2)).2 + 1 ∧ (dateOf year (month - 2)).2 + 1 ≤ 12 ∧
    (pad2 ((dateOf year (month - 2)).2 + 1)).length = 2 := by
  have e1 : (-1 : ℤ) / 12 = -1 := by decide
  have e2 : (-1 : ℤ) % 12 = 11 := by decide
  refine ⟨⟨?_, ?_, ?_⟩, ?_, ?_, ?_, ?_, ?_⟩
  · simp only [shiftMonth, dateOf]; omega
  · simp only [shiftMonth, dateOf]; omega
  · simp only [shiftMonth, dateOf]; omega
  · simp only [shiftMonth, dateOf, Prod.mk.injEq]
    norm_num [e1, e2]
    omega
  · simp only [getMonthKey, dateOf]
    norm_num [e1, e2]
    rw [show year + (-1 : ℤ) = year - 1 from by ring]
    rw [show pad2 (12 : ℤ) = "12" from by decide]
  · simp only [dateOf]; omega
  · simp only [dateOf]; omega
  · have hlow : 1 ≤ (dateOf year (month - 2)).2 + 1 := by simp only [dateOf]; omega
    have hhigh : (dateOf year (month - 2)).2 + 1 ≤ 12 := by simp only [dateOf]; omega
    set m := (dateOf year (month - 2)).2 + 1 with hm
    interval_cases m <;> decide

/-- Witness for C6 at the concrete target January 2026: the previous
month key is `"2025-12"` and shifting January back one month lands on
December 2025. -/
theorem shiftMonth_spec_witness :
    shiftMonth 2026 1 (-1) = (2025, 12) ∧
    getMonthKey (dateOf 2026 (1 - 2)) = "2025-12" := by
  have h := shiftMonth_spec 2026 1 (-1)
  refine ⟨?_, ?_⟩
  · have := h.2.1
    rw [this]
    norm_num
  · have := h.2.2.1
    rw [this]
    decide

/-! ## C4: total available and remaining balance -/

/-- C4: `totalAvailable` is `income + rollover` of the month's ledger
when one exists and 0 otherwise; `remainingBalance` is exactly
`totalAvailable - totalSpent`, and in particular it goes strictly
negative whenever spending exceeds the available total — it is never
clamped at zero. -/
theorem remainingBalance_spec (st : AppState) (key : String) :
    (∀ L, getLedger st.monthlyLedgers key = some L →
      totalAvailable st key = L.income + L.rollover) ∧
    (getLedger st.monthlyLedgers key = none → totalAvailable st key = 0) ∧
    remainingBalance st key = totalAvailable st key - totalSpent st key ∧
    (totalAvailable st key < totalSpent st key → remainingBalance st key < 0) := by
  refine ⟨?_, ?_, rfl, ?_⟩
  · intro L h; simp [totalAvailable, h]
  · intro h; simp [totalAvailable, h]
  · intro h
    have : remainingBalance st key = totalAvailable st key - totalSpent st key := rfl
    rw [this]
    linarith

/-- Witness for C4 on `stOverspend`: the October 2025 ledger holds
income 100 and rollover 20, 170 were spent, and the remaining balance is
the negative −50. -/
theorem remainingBalance_spec_witness :
    totalAvailable stOverspend "2025-10" = 120 ∧
    remainingBalance stOverspend "2025-10" = -50 ∧
    remainingBalance stOverspend "2025-10" < 0 := by
  have havail := (remainingBalance_spec stOverspend "2025-10").1
    { income := 100, rollover := 20, status := "OPEN" } (by decide)
  have hspent : totalSpent stOverspend "2025-10" = 170 := by
    have hcur : currentTransactions stOverspend "2025-10" =
        [{ id := "t1", monthKey := "2025-10", categoryId := "cat1",
           amount := 170, description := none, date := "d", isFixed := false }] := by decide
    rw [totalSpent, hcur]
    simp [sumAmounts]
  have hrem := (remainingBalance_spec stOverspend "2025-10").2.2.1
  refine ⟨?_, ?_, ?_⟩
  · rw [havail]; norm_num
  · rw [hrem, havail, hspent]; norm_num
  · exact (remainingBalance_spec stOverspend "2025-10").2.2.2 (by rw [havail, hspent]; norm_num)

/-! ## C9: rollover and summary are pure reads -/

/-- C9: the rollover computation and the summary computation, viewed as
state transformers (their effect on component state is the composition
of the `set...` calls they make — none), leave all four collections
unchanged, and running either twice with no intervening mutation yields
the same value both times. -/
theorem readOps_pure (st : AppState) (year month : ℤ) (key : String) :
    ((calculateRolloverOp st year month).2.categories = st.categories ∧
      (calculateRolloverOp st year month).2.recurringExpenses = st.recurringExpenses ∧
      (calculateRolloverOp st year month).2.monthlyLedgers = st.monthlyLedgers ∧
      (calculateRolloverOp st year month).2.transactions = st.transactions) ∧
    (calculateRolloverOp (calculateRolloverOp st year month).2 year month).1 =
      (calculateRolloverOp st year month).1 ∧
    (getSummaryOp (getSummaryOp st key).2 key).1 = (getSummaryOp st key).1 ∧
    (getSummaryOp st key).2 = st := by
  exact ⟨⟨rfl, rfl, rfl, rfl⟩, rfl, rfl, rfl⟩

/-! ## C10: frame property of opening a month -/

/-- C10: `startNewMonth` leaves the category registry and the recurring
template registry untouched, only appends to the transaction log (every
previously existing transaction survives unchanged, in place), and
touches no ledger keyed by a different month, while the target month's
entry becomes the new ledger. -/
theorem startNewMonth_frame (st : AppState) (key : String) (income rollover : ℚ)
    (idGen : ℕ → String) (now : String) :
    (startNewMonth st key income rollover idGen now).categories = st.categories ∧
    (startNewMonth st key income rollover idGen now).recurringExpenses =
      st.recurringExpenses ∧
    (startNewMonth st key income rollover idGen now).transactions =
      st.transactions ++ makeAutos idGen key now 0 st.recurringExpenses ∧
    (∀ k, k ≠ key →
      getLedger (startNewMonth st key income rollover idGen now).monthlyLedgers k =
        getLedger st.monthlyLedgers k) ∧
    getLedger (startNewMonth st key income rollover idGen now).monthlyLedgers key =
      some { income := income, rollover := rollover, status := "OPEN" } := by
  refine ⟨rfl, rfl, rfl, ?_, ?_⟩
  · intro k hk
    exact getLedger_setLedger_ne st.monthlyLedgers key k _ hk
  · exact getLedger_setLedger_self st.monthlyLedgers key _

/-- Witness for C10: opening October 2025 on `stOpened` extended with a
September ledger leaves the September ledger, both registries and the
empty log prefix intact. -/
theorem startNewMonth_frame_witness :
    (startNewMonth stOpened "2025-11" 2000 500 sampleIdGen "now").categories =
      stOpened.categories ∧
    getLedger (startNewMonth stOpened "2025-11" 2000 500 sampleIdGen "now").monthlyLedgers
      "2025-10" = getLedger stOpened.monthlyLedgers "2025-10" ∧
    getLedger (startNewMonth stOpened "2025-11" 2000 500 sampleIdGen "now").monthlyLedgers
      "2025-11" = some { income := 2000, rollover := 500, status := "OPEN" } := by
  refine ⟨(startNewMonth_frame stOpened "2025-11" 2000 500 sampleIdGen "now").1, ?_, ?_⟩
  · exact (startNewMonth_frame stOpened "2025-11" 2000 500 sampleIdGen "now").2.2.2.1
      "2025-10" (by decide)
  · exact (startNewMonth_frame stOpened "2025-11" 2000 500 sampleIdGen "now").2.2.2.2

/-! ## C3: double-open behaviour -/

/-- Counterexample to C3 as stated: on `stOpened` — October 2025 already
open with one recurring template and an empty log — invoking
`startNewMonth` for October again does not fail: it appends one
automated transaction (count 0 → 1) and replaces the existing ledger. -/
theorem startNewMonth_double_open_counterexample :
    getLedger stOpened.monthlyLedgers "2025-10" =
      some { income := 3000, rollover := 0, status := "OPEN" } ∧
    (startNewMonth stOpened "2025-10" 500 0 sampleIdGen "now").transactions.length =
      stOpened.transactions.length + 1 ∧
    getLedger (startNewMonth stOpened "2025-10" 500 0 sampleIdGen "now").monthlyLedgers
      "2025-10" = some { income := 500, rollover := 0, status := "OPEN" } := by
  refine ⟨by decide, by decide, by decide⟩

/-- C3 (amended): `startNewMonth` itself performs no already-open check —
invoked for an open month it overwrites the ledger and appends one
automated transaction per registered template; the double-open is
instead rejected upstream: the month-setup screen, the only caller, is
rendered only when no ledger exists for the displayed month, so the
open-month flow on an already-open month performs nothing and leaves
the transaction log unchanged. -/
theorem openMonthFlow_rejects_double_open (st : AppState) (key : String)
    (income rollover : ℚ) (idGen : ℕ → String) (now : String)
    (h : (getLedger st.monthlyLedgers key).isSome = true) :
    openMonthFlow st key income rollover idGen now = none ∧
    (startNewMonth st key income rollover idGen now).transactions.length =
      st.transactions.length + st.recurringExpenses.length ∧
    getLedger (startNewMonth st key income rollover idGen now).monthlyLedgers key =
      some { income := income, rollover := rollover, status := "OPEN" } := by
  refine ⟨by simp [openMonthFlow, h], ?_, getLedger_setLedger_self _ _ _⟩
  show (st.transactions ++ makeAutos idGen key now 0 st.recurringExpenses).length = _
  rw [List.length_append, makeAutos_length]

/-- Witness for the amended C3 on `stOpened`: the guarded flow refuses
to re-open October 2025, while a raw `startNewMonth` call there would
append one automated transaction. -/
theorem openMonthFlow_rejects_double_open_witness :
    openMonthFlow stOpened "2025-10" 500 0 sampleIdGen "now" = none ∧
    (startNewMonth stOpened "2025-10" 500 0 sampleIdGen "now").transactions.length = 1 := by
  have h := openMonthFlow_rejects_double_open stOpened "2025-10" 500 0 sampleIdGen "now"
    (by decide)
  exact ⟨h.1, by simpa using h.2.1⟩

/-! ## C7: category utilization -/

/-- Counterexample to C7 as stated: for the registered zero-limit
category of `stZeroLimit` with zero spend, the rendered percentage is
JavaScript `NaN` (`0 / 0`), not 100. -/
theorem percentage_zero_limit_counterexample :
    percentage (getSpentByCategory stZeroLimit "2025-10" catZero.id) catZero.limit =
      JsNum.nan ∧
    JsNum.nan ≠ JsNum.num 100 := by
  exact ⟨by decide, by decide⟩

/-- C7 (amended): for nonnegative spend, the percentage is
`min(100, 100 · spent / limit)`, which lies in `[0, 100]`, whenever
`limit > 0`; with `limit = 0` and positive spend it is exactly 100
(`Infinity` clamped by `Math.min`); but with `limit = 0` and zero spend
it evaluates to `NaN` — not 100 and not a value in range. -/
theorem percentage_spec (spent limit : ℚ) (hs : 0 ≤ spent) :
    (0 < limit →
      percentage spent limit = JsNum.num (min (spent / limit * 100) 100) ∧
      0 ≤ min (spent / limit * 100) 100 ∧ min (spent / limit * 100) 100 ≤ 100) ∧
    (limit = 0 → 0 < spent → percentage spent limit = JsNum.num 100) ∧
    (limit = 0 → spent = 0 → percentage spent limit = JsNum.nan) := by
  refine ⟨?_, ?_, ?_⟩
  · intro hl
    refine ⟨by simp [percentage, jsDiv, jsMul100, jsMin, hl.ne'], ?_, min_le_right _ _⟩
    have hq : 0 ≤ spent / limit * 100 := by positivity
    exact le_min hq (by norm_num)
  · intro hl hpos
    simp [percentage, jsDiv, jsMul100, jsMin, hl, hpos]
  · intro hl hzero
    simp [percentage, jsDiv, jsMul100, jsMin, hl, hzero]

/-- Witness for the amended C7: spending 250 against a 200 limit clamps
to 100, and a positive spend against a zero limit also reads 100. -/
theorem percentage_spec_witness :
    percentage 250 200 = JsNum.num 100 ∧ percentage 5 0 = JsNum.num 100 := by
  constructor
  · have h := (percentage_spec 250 200 (by norm_num)).1 (by norm_num)
    rw [h.1]
    congr 1
    rw [show (250 : ℚ) / 200 * 100 = 125 from by norm_num]
    exact min_eq_right (by norm_num)
  · exact (percentage_spec 5 0 (by norm_num)).2.1 rfl (by norm_num)

/-! ## C8: recording a transaction -/

/-- Counterexample to C8 as stated: on the empty state — no registered
category, no ledger for October 2025 — and with amount 0, the submit
handler still appends a transaction instead of failing. -/
theorem recordTransaction_counterexample :
    (recordTransaction stEmpty "2025-10" "catX" 0 "id1" "now").transactions.length =
      stEmpty.transactions.length + 1 ∧
    stEmpty.categories = [] ∧
    getLedger stEmpty.monthlyLedgers "2025-10" = none ∧
    ¬ (0 : ℚ) > 0 := by
  exact ⟨by decide, rfl, rfl, by norm_num⟩

/-- C8 (amended): the add-transaction submit handler performs no
validation at all: for every state and every input — including an
amount ≤ 0, an unregistered category id, or a month with no ledger — it
appends exactly one user transaction carrying the given month key,
category and amount, leaves the other three collections unchanged, and
the month's total spend grows by exactly the given amount.  (The UI
prevents the month-not-open case upstream: the add-transaction screen
renders only when a ledger exists for the current month, and its
category selector only offers registered categories.) -/
theorem recordTransaction_spec (st : AppState) (key categoryId : String) (amount : ℚ)
    (id now : String) :
    (recordTransaction st key categoryId amount id now).transactions =
      st.transactions ++
        [{ id := id, monthKey := key, categoryId := categoryId, amount := amount,
           description := none, date := now, isFixed := false }] ∧
    (recordTransaction st key categoryId amount id now).categories = st.categories ∧
    (recordTransaction st key categoryId amount id now).recurringExpenses =
      st.recurringExpenses ∧
    (recordTransaction st key categoryId amount id now).monthlyLedgers =
      st.monthlyLedgers ∧
    totalSpent (recordTransaction st key categoryId amount id now) key =
      totalSpent st key + amount := by
  refine ⟨rfl, rfl, rfl, rfl, ?_⟩
  simp only [totalSpent, currentTransactions, recordTransaction, List.filter_append]
  rw [sumAmounts_eq, sumAmounts_eq, List.map_append, List.sum_append]
  congr 1
  simp

/-! ## C5: aggregation consistency -/

theorem sum_map_add_distrib (cats : List Category) (f g : Category → ℚ) :
    (cats.map (fun c => f c + g c)).sum = (cats.map f).sum + (cats.map g).sum := by
  induction cats with
  | nil => simp
  | cons c rest ih => simp [ih]; ring

theorem sum_map_ite_of_not_mem (cats : List Category) (x : String) (v : ℚ)
    (hx : x ∉ cats.map Category.id) :
    (cats.map (fun c => if x == c.id then v else 0)).sum = 0 := by
  induction cats with
  | nil => simp
  | cons c rest ih =>
      simp only [List.map_cons, List.mem_cons, not_or] at hx
      have hne : (x == c.id) = false := by simpa using hx.1
      simp only [List.map_cons, List.sum_cons, hne, Bool.false_eq_true, if_false, zero_add]
      exact ih hx.2

theorem sum_map_ite_of_mem (cats : List Category) (x : String) (v : ℚ)
    (hnd : (cats.map Category.id).Nodup) (hx : x ∈ cats.map Category.id) :
    (cats.map (fun c => if x == c.id then v else 0)).sum = v := by
  induction cats with
  | nil => simp at hx
  | cons c rest ih =>
      simp only [List.map_cons, List.nodup_cons] at hnd
      simp only [List.map_cons, List.mem_cons] at hx
      by_cases h : x = c.id
      · have heq : (x == c.id) = true := by simpa using h
        simp only [List.map_cons, List.sum_cons, heq, if_true]
        rw [sum_map_ite_of_not_mem rest x v (h ▸ hnd.1), add_zero]
      · have hne : (x == c.id) = false := by simpa using h
        simp only [List.map_cons, List.sum_cons, hne, Bool.false_eq_true, if_false, zero_add]
        exact ih hnd.2 (hx.resolve_left h)

theorem sum_filter_split (cats : List Category) (L : List Transaction)
    (hnd : (cats.map Category.id).Nodup)
    (hall : ∀ t ∈ L, t.categoryId ∈ cats.map Category.id) :
    (cats.map (fun c =>
      ((L.filter (fun t => t.categoryId == c.id)).map Transaction.amount).sum)).sum =
      (L.map Transaction.amount).sum := by
  induction L with
  | nil => simp
  | cons t rest ih =>
      have hpoint : cats.map (fun c =>
          (((t :: rest).filter (fun s => s.categoryId == c.id)).map Transaction.amount).sum) =
          cats.map (fun c =>
            (if t.categoryId == c.id then t.amount else 0) +
              ((rest.filter (fun s => s.categoryId == c.id)).map Transaction.amount).sum) := by
        apply List.map_congr_left
        intro c _
        rw [List.filter_cons]
        by_cases h : t.categoryId = c.id
        · have heq : (t.categoryId == c.id) = true := by simpa using h
          simp [heq]
        · have hne : (t.categoryId == c.id) = false := by simpa using h
          simp [hne]
      rw [hpoint, sum_map_add_distrib]
      rw [sum_map_ite_of_mem cats t.categoryId t.amount hnd
        (hall t (List.mem_cons_self t rest))]
      rw [ih (fun s hs => hall s (List.mem_cons_of_mem t hs))]
      simp

/-- C5: whenever category ids are unique in the registry (a data-model
invariant of the registry) and every transaction of the month references
a registered category, summing the month's transactions directly equals
summing them per category and adding up. -/
theorem totalSpent_eq_sum_spentByCategory (st : AppState) (key : String)
    (hnd : (st.categories.map Category.id).Nodup)
    (hall : ∀ t ∈ st.transactions, t.monthKey = key →
      t.categoryId ∈ st.categories.map Category.id) :
    totalSpent st key =
      (st.categories.map (fun c => getSpentByCategory st key c.id)).sum := by
  have hmap : st.categories.map (fun c => getSpentByCategory st key c.id) =
      st.categories.map (fun c =>
        (((currentTransactions st key).filter
          (fun t => t.categoryId == c.id)).map Transaction.amount).sum) := by
    apply List.map_congr_left
    intro c _
    rw [getSpentByCategory, sumAmounts_eq]
  rw [totalSpent, sumAmounts_eq, hmap]
  refine (sum_filter_split st.categories (currentTransactions st key) hnd ?_).symm
  intro t ht
  rw [currentTransactions, List.mem_filter] at ht
  exact hall t ht.1 (by simpa using ht.2)

/-- Witness for C5 on `stAgg`: 1200 on the first category plus 50 + 75
on the second adds up to the month's total of 1325, both ways. -/
theorem totalSpent_eq_sum_spentByCategory_witness :
    totalSpent stAgg "2025-10" =
      (stAgg.categories.map (fun c => getSpentByCategory stAgg "2025-10" c.id)).sum ∧
    totalSpent stAgg "2025-10" = 1325 := by
  refine ⟨totalSpent_eq_sum_spentByCategory stAgg "2025-10" (by decide) (by decide), ?_⟩
  have hcur : currentTransactions stAgg "2025-10" =
      [{ id := "t1", monthKey := "2025-10", categoryId := "cat1",
         amount := 1200, description := none, date := "d", isFixed := false },
       { id := "t2", monthKey := "2025-10", categoryId := "cat2",
         amount := 50, description := none, date := "d", isFixed := false },
       { id := "t3", monthKey := "2025-10", categoryId := "cat2",
         amount := 75, description := none, date := "d", isFixed := false }] := by decide
  rw [totalSpent, hcur]
  simp only [sumAmounts, List.foldl_cons, List.foldl_nil]
  norm_num

/-! ## C2: opening a month materializes the templates -/

theorem makeAutos_mem_id (idGen : ℕ → String) (key now : String) :
    ∀ (i : ℕ) (l : List Recurring) (t : Transaction), t ∈ makeAutos idGen key now i l →
      ∃ j, i ≤ j ∧ t.id = idGen j := by
  intro i l
  induction l generalizing i with
  | nil => intro t ht; simp [makeAutos] at ht
  | cons m rest ih =>
      intro t ht
      rw [makeAutos, List.mem_cons] at ht
      rcases ht with h | h
      · exact ⟨i, le_refl i, by rw [h]⟩
      · obtain ⟨j, hj, hid⟩ := ih (i + 1) t h
        exact ⟨j, by omega, hid⟩

theorem makeAutos_id_nodup (idGen : ℕ → String) (key now : String)
    (hinj : ∀ i j : ℕ, idGen i = idGen j → i = j) :
    ∀ (i : ℕ) (l : List Recurring),
      ((makeAutos idGen key now i l).map Transaction.id).Nodup := by
  intro i l
  induction l generalizing i with
  | nil => simp [makeAutos]
  | cons m rest ih =>
      rw [makeAutos, List.map_cons, List.nodup_cons]
      refine ⟨?_, ih (i + 1)⟩
      intro hmem
      obtain ⟨t, ht, hid⟩ := List.mem_map.1 hmem
      obtain ⟨j, hj, hidj⟩ := makeAutos_mem_id idGen key now (i + 1) rest t ht
      have : j = i := hinj j i (by rw [← hidj, hid])
      omega

theorem makeAutos_forall₂ (idGen : ℕ → String) (key now : String) :
    ∀ (i : ℕ) (l : List Recurring),
      List.Forall₂ (fun (model : Recurring) (t : Transaction) =>
          t.monthKey = key ∧ t.categoryId = model.categoryId ∧ t.amount = model.amount ∧
          t.description = some (model.name ++ " (Fixo Recorrente)") ∧ t.isFixed = true)
        l (makeAutos idGen key now i l) := by
  intro i l
  induction l generalizing i with
  | nil => exact List.Forall₂.nil
  | cons m rest ih =>
      rw [makeAutos]
      exact List.Forall₂.cons ⟨rfl, rfl, rfl, rfl, rfl⟩ (ih (i + 1))

/-- C2: opening a month on a state whose ledger keys are unique (the
JavaScript-object invariant) with an id oracle that never repeats and
never collides with an existing transaction id gives: exactly one ledger
entry for the month, holding the given income and rollover with status
`"OPEN"`; the log grows by exactly one automated transaction per
registered template — no more, no fewer — each copying its template's
amount and category, described by the template name plus the
`" (Fixo Recorrente)"` marker, flagged automated; and the new ids are
pairwise distinct and distinct from every pre-existing transaction id. -/
theorem startNewMonth_spec (st : AppState) (key : String) (income rollover : ℚ)
    (idGen : ℕ → String) (now : String)
    (hnd : (st.monthlyLedgers.map Prod.fst).Nodup)
    (hinj : ∀ i j : ℕ, idGen i = idGen j → i = j)
    (hfresh : ∀ (i : ℕ), ∀ t ∈ st.transactions, idGen i ≠ t.id) :
    (((startNewMonth st key income rollover idGen now).monthlyLedgers.filter
        (fun p => p.1 == key)).length = 1 ∧
      getLedger (startNewMonth st key income rollover idGen now).monthlyLedgers key =
        some { income := income, rollover := rollover, status := "OPEN" }) ∧
    (startNewMonth st key income rollover idGen now).transactions =
      st.transactions ++ makeAutos idGen key now 0 st.recurringExpenses ∧
    (makeAutos idGen key now 0 st.recurringExpenses).length =
      st.recurringExpenses.length ∧
    List.Forall₂ (fun (model : Recurring) (t : Transaction) =>
        t.monthKey = key ∧ t.categoryId = model.categoryId ∧ t.amount = model.amount ∧
        t.description = some (model.name ++ " (Fixo Recorrente)") ∧ t.isFixed = true)
      st.recurringExpenses (makeAutos idGen key now 0 st.recurringExpenses) ∧
    ((makeAutos idGen key now 0 st.recurringExpenses).map Transaction.id).Nodup ∧
    (∀ t ∈ makeAutos idGen key now 0 st.recurringExpenses,
      ∀ u ∈ st.transactions, t.id ≠ u.id) := by
  refine ⟨⟨countP_setLedger st.monthlyLedgers key _ hnd,
    getLedger_setLedger_self st.monthlyLedgers key _⟩, rfl,
    makeAutos_length idGen key now 0 st.recurringExpenses,
    makeAutos_forall₂ idGen key now 0 st.recurringExpenses,
    makeAutos_id_nodup idGen key now hinj 0 st.recurringExpenses, ?_⟩
  intro t ht u hu
  obtain ⟨j, _, hid⟩ := makeAutos_mem_id idGen key now 0 st.recurringExpenses t ht
  rw [hid]
  exact hfresh j u hu

/-- An injective id oracle used by the C2 witness: `i` letters `a`. -/
def witnessIdGen (i : ℕ) : String := String.mk (List.replicate i 'a')

/-- Witness for C2 on `stFresh` (one template, no ledger, empty log):
opening October 2025 with income 3000 yields exactly one ledger entry
for `"2025-10"` and exactly one automated transaction copying the
1200-`cat1` template. -/
theorem startNewMonth_spec_witness :
    getLedger (startNewMonth stFresh "2025-10" 3000 0 witnessIdGen "now").monthlyLedgers
      "2025-10" = some { income := 3000, rollover := 0, status := "OPEN" } ∧
    (startNewMonth stFresh "2025-10" 3000 0 witnessIdGen "now").transactions.length = 1 ∧
    ((startNewMonth stFresh "2025-10" 3000 0 witnessIdGen "now").monthlyLedgers.filter
      (fun p => p.1 == "2025-10")).length = 1 := by
  have hinj : ∀ i j : ℕ, witnessIdGen i = witnessIdGen j → i = j := by
    intro i j h
    have hdata : List.replicate i 'a' = List.replicate j 'a' := by
      simpa [witnessIdGen] using congrArg String.data h
    have := congrArg List.length hdata
    simpa using this
  have h := startNewMonth_spec stFresh "2025-10" 3000 0 witnessIdGen "now"
    (by decide) hinj (by intro i t ht; simp [stFresh] at ht)
  refine ⟨h.1.2, ?_, h.1.1⟩
  rw [h.2.1, List.length_append, h.2.2.1]
  rfl

end GerenciadorSalario
